import Mathlib

/-!
Shallow embedding of the `agent-tools` repository (Python) and proofs about
its specified behaviour.

Embedded modules:
- `src/agent_tools/subagent_monitor.py` : `check_health`, `get_sessions`,
  `format_duration`
- `src/agent_tools/registry.py`         : `_REGISTRY`, `get_tool`
- `src/agent_tools/vision/base.py`      : `VisionResult.__str__`
- `src/agent_tools/vision/ollama.py` and `vision/venice.py` : `_encode_image`,
  `from_env`
- `src/agent_tools/utils/config.py`     : `get_env`, `load_dotenv`

Conventions of the embedding:
- Python `dict` values parsed from JSON are modelled by the inductive `Json`.
- A Python process environment is a function `String → Option String`.
- Wall-clock time (`datetime.now().timestamp() * 1000`) is an explicit
  parameter `now : ℚ`; elapsed-time arithmetic on Python floats is modelled
  with exact rationals.
- A Python function that can raise an uncaught exception returns `Option`
  or `Except`: `none` / `.error` marks the raise.
-/

/-- JSON values, the shape of data produced by Python `json.loads`. -/
inductive Json where
  | null : Json
  | bool (b : Bool) : Json
  | num (n : Int) : Json
  | str (s : String) : Json
  | arr (elems : List Json) : Json
  | obj (kvs : List (String × Json)) : Json

/-- Python `dict.get(k)` on a parsed JSON object: first binding of the key,
`none` when absent. -/
def jsonLookup (kvs : List (String × Json)) (k : String) : Option Json :=
  (kvs.find? (fun kv => kv.fst == k)).map (fun kv => kv.snd)

/-! ## subagent_monitor.py -/

/-- A session record as consumed by `check_health`: each field of the
underlying JSON object is optional, `none` meaning the key is absent
(for `totalTokens`, absent or JSON null — the Python code treats both as
`None`). -/
structure Session where
  key : Option String
  sessionKey : Option String
  kind : Option String
  updatedAt : Option Int
  totalTokens : Option Int
  systemSent : Option Bool
  abortedLastRun : Option Bool
  sessionId : Option String
  model : Option String

/-- The Python condition `total_tokens is None or total_tokens == 0`. -/
def tokens_zero_or_none (t : Option Int) : Bool :=
  match t with
  | none => true
  | some v => v == 0

/-- The Python condition `total_tokens is not None and total_tokens > 0`. -/
def tokens_positive (t : Option Int) : Bool :=
  match t with
  | none => false
  | some v => decide (0 < v)

/-- Python `%.1f` formatting of a rational, as used by `format_duration`.
Python formats a binary double with round-half-even; the embedding rounds
the exact rational with `round` (half away from zero), which agrees except
on exact ties introduced by the double representation. -/
def format_one_decimal (x : ℚ) : String :=
  let t : Int := round (x * 10)
  let sign := if t < 0 then "-" else ""
  sign ++ toString (t.natAbs / 10) ++ "." ++ toString (t.natAbs % 10)

/-- `format_duration(minutes)` from subagent_monitor.py. -/
def format_duration (minutes : ℚ) : String :=
  if minutes < 1 then
    toString (round (minutes * 60)) ++ "s"
  else if minutes < 60 then
    format_one_decimal minutes ++ "m"
  else
    format_one_decimal (minutes / 60) ++ "h"

/-- The record returned by `check_health`. -/
structure Health where
  key : String
  id : String
  kind : String
  display : String
  status : String
  idle_min : ℚ
  total_tokens : Option Int
  model : String
  issues : List String
  last_update : String
  system_sent : Bool

/-- `check_health(session, stuck_threshold)` from subagent_monitor.py.

`fmtTime` stands for `format_timestamp` (strftime of a local-time
`datetime`, which depends on the host timezone and so is a parameter of the
embedding); `now` is `datetime.now().timestamp() * 1000`.

The four `if` blocks of the source are translated one to one; note that the
source reassigns `status` in each block, so a later matching block
overwrites the status set by an earlier one, while issues accumulate. -/
def check_health (fmtTime : Int → String) (now : ℚ) (session : Session)
    (stuck_threshold : Int) : Health :=
  let key := session.key.getD (session.sessionKey.getD "unknown")
  let kind := session.kind.getD "unknown"
  let updated_at := session.updatedAt.getD 0
  let total_tokens := session.totalTokens
  let system_sent := session.systemSent.getD false
  let aborted := session.abortedLastRun.getD false
  let session_id := (session.sessionId.getD "-").take 8
  let model0 := session.model.getD "-"
  let model :=
    if model0 ≠ "" ∧ model0 ≠ "-" then
      let m1 :=
        if (model0.splitOn "/").length > 1 then
          (model0.splitOn "/").getLastD model0
        else model0
      if m1.length > 18 then m1.take 15 ++ "..." else m1
    else model0
  let display :=
    if (key.splitOn "discord:channel:").length > 1 then
      ((key.splitOn "discord:channel:").getLastD key).take 35
    else if (key.splitOn "cron:").length > 1 then
      "cron:" ++ ((key.splitOn "cron:").getLastD key).take 30
    else if (key.splitOn "main").length > 1 then
      "main"
    else key.take 40
  let idle_ms := now - (updated_at : ℚ)
  let idle_min := idle_ms / 60000
  let issues1 := if aborted = true then ["crashed/aborted"] else []
  let status1 := if aborted = true then "crashed" else "healthy"
  let issues2 :=
    if system_sent = false ∧ tokens_zero_or_none total_tokens = true then
      issues1 ++ ["never started (no system)"]
    else issues1
  let status2 :=
    if system_sent = false ∧ tokens_zero_or_none total_tokens = true then
      "stalled"
    else status1
  let issues3 :=
    if (5 : ℚ) < idle_min ∧ tokens_positive total_tokens = true then
      issues2 ++ ["idle " ++ format_duration idle_min]
    else issues2
  let issues4 :=
    if (stuck_threshold : ℚ) < idle_min then
      issues3 ++ ["STUCK >" ++ toString stuck_threshold ++ "min"]
    else issues3
  let status4 :=
    if (stuck_threshold : ℚ) < idle_min then "suspect" else status2
  { key := key
    id := session_id
    kind := kind
    display := display
    status := status4
    idle_min := idle_min
    total_tokens := total_tokens
    model := model
    issues := issues4
    last_update := fmtTime updated_at
    system_sent := system_sent }

/-- The Python expression `s.get("kind") == k` for a parsed JSON value `s`,
as evaluated inside the try-block of the line-delimited fallback of
`get_sessions` (where an `AttributeError` on a non-dict `s` is swallowed by
the bare `except`, so a non-object compares unequal). -/
def is_kind (s : Json) (k : String) : Bool :=
  match s with
  | Json.obj kvs =>
    match jsonLookup kvs "kind" with
    | some (Json.str v) => v == k
    | _ => false
  | _ => false

/-- The Python list comprehension `[s for s in sessions if s.get("kind") == k]`
outside any exception handler: a non-dict element raises `AttributeError`
(modelled by `none`). -/
def filter_kind (l : List Json) (k : String) : Option (List Json) :=
  match l with
  | [] => some []
  | s :: rest =>
    match s with
    | Json.obj kvs =>
      match filter_kind rest k with
      | none => none
      | some r =>
        match jsonLookup kvs "kind" with
        | some (Json.str v) => if v == k then some (s :: r) else some r
        | _ => some r
    | _ => none

/-- The line-delimited JSON fallback loop of `get_sessions`: each non-empty
line of the stripped stdout is parsed; a parse failure, or any exception
inside the per-line block, is swallowed (`except: pass`). -/
def parse_lines (parse : String → Option Json) (stdout : String)
    (subagents_only channels_only : Bool) : List Json :=
  (stdout.trim.splitOn "\n").foldl
    (fun acc line =>
      if line ≠ "" then
        match parse line with
        | some s =>
          if subagents_only && is_kind s "isolated" then acc ++ [s]
          else if channels_only && is_kind s "group" then acc ++ [s]
          else if !subagents_only && !channels_only then acc ++ [s]
          else acc
        | none => acc
      else acc)
    []

/-- `get_sessions` from subagent_monitor.py, after the external
`subprocess.run` call: `parse` stands for `json.loads` (`none` =
`JSONDecodeError`), `returncode`/`stdout` are the completed process result.
The returned value is the Python return value (`Json.arr` for a list);
`none` marks an uncaught exception (`data.get` on a non-dict top-level
value, or iterating a non-list `sessions` value in the filtering
comprehensions — degenerate empty iterables such as an empty string are not
distinguished from this error case). A non-zero exit prints to stderr and
returns the empty list. -/
def get_sessions (parse : String → Option Json) (returncode : Int)
    (stdout : String) (subagents_only channels_only : Bool) : Option Json :=
  if returncode ≠ 0 then some (Json.arr [])
  else
    match parse stdout with
    | some data =>
      match data with
      | Json.obj kvs =>
        let sessions := (jsonLookup kvs "sessions").getD (Json.arr [])
        if subagents_only then
          match sessions with
          | Json.arr l => (filter_kind l "isolated").map Json.arr
          | _ => none
        else if channels_only then
          match sessions with
          | Json.arr l => (filter_kind l "group").map Json.arr
          | _ => none
        else some sessions
      | _ => none
    | none =>
      some (Json.arr (parse_lines parse stdout subagents_only channels_only))

/-! ## registry.py -/

/-- The Python class objects that `importlib.import_module` + `getattr` can
resolve from the registry entries of this repository. -/
inductive PyClass where
  | ollamaVisionClient : PyClass
  | veniceVisionClient : PyClass
deriving DecidableEq

/-- Direct import of a class from a module of this repository: models
`getattr(import_module(module_path), class_name)` for the two vision client
classes; `none` is an `ImportError`/`AttributeError` for anything else. -/
def import_class (module_path class_name : String) : Option PyClass :=
  if module_path = "agent_tools.vision.ollama" ∧
      class_name = "OllamaVisionClient" then
    some PyClass.ollamaVisionClient
  else if module_path = "agent_tools.vision.venice" ∧
      class_name = "VeniceVisionClient" then
    some PyClass.veniceVisionClient
  else none

/-- `_check_env(var)` from registry.py: `os.environ.get(var)`. -/
def check_env (var : String) (env : String → Option String) : Option String :=
  env var

/-- `ToolInfo` from registry.py. `is_available` closes over the process
environment, made explicit here. -/
structure ToolInfo where
  name : String
  description : String
  module_path : String
  class_name : String
  env_vars : List String
  is_available : (String → Option String) → Bool

/-- `ToolInfo.cls`: dynamically import and return the tool class. -/
def ToolInfo.cls (t : ToolInfo) : Option PyClass :=
  import_class t.module_path t.class_name

/-- `_REGISTRY` from registry.py. -/
def REGISTRY : List ToolInfo :=
  [ { name := "vision.ollama"
      description := "Ollama Cloud vision analysis (free tier, preferred)"
      module_path := "agent_tools.vision.ollama"
      class_name := "OllamaVisionClient"
      env_vars := ["OLLAMA_HOST"]
      is_available := fun env => (check_env "OLLAMA_HOST" env).isSome },
    { name := "vision.venice"
      description := "Venice AI vision analysis (paid, reliable fallback)"
      module_path := "agent_tools.vision.venice"
      class_name := "VeniceVisionClient"
      env_vars := ["VENICE_API_KEY"]
      is_available := fun env => (check_env "VENICE_API_KEY" env).isSome } ]

/-- `get_tool(name)` from registry.py: linear scan of `_REGISTRY`, returning
the dynamically imported class of the first entry with a matching name;
`.error` is the `KeyError` raised when no entry matches (the source message
also lists the available names). -/
def get_tool (name : String) : Except String (Option PyClass) :=
  match REGISTRY.find? (fun t => t.name == name) with
  | some t => Except.ok t.cls
  | none => Except.error ("Tool " ++ name ++ " not found")

/-! ## vision/base.py -/

/-- `VisionResult` from vision/base.py: result of an image analysis. -/
structure VisionResult where
  description : String
  raw_response : Option Json := none
  model : Option String := none

/-- `VisionResult.__str__`. -/
def VisionResult.str (r : VisionResult) : String :=
  r.description

/-! ## utils/config.py -/

/-- `get_env(key, default, required)` from utils/config.py, over an explicit
process environment. `.error` is the raised `ValueError` (the source message
names the missing key). -/
def get_env (env : String → Option String) (key : String)
    (default : Option String) (required : Bool) : Except String (Option String) :=
  let value :=
    match env key with
    | some v => some v
    | none => default
  if required = true ∧ value = none then
    Except.error ("Required environment variable " ++ key ++ " is not set")
  else Except.ok value

/-- `VeniceVisionClient.from_env`: `get_env("VENICE_API_KEY", required=True)`
over the environment as it stands after `load_dotenv()`. The result carries
the value passed to the client constructor. -/
def venice_from_env (env : String → Option String) : Except String (Option String) :=
  get_env env "VENICE_API_KEY" none true

/-- `OllamaVisionClient.from_env`:
`get_env("OLLAMA_HOST", default="http://127.0.0.1:11434")` over the
environment as it stands after `load_dotenv()`. -/
def ollama_from_env (env : String → Option String) : Except String (Option String) :=
  get_env env "OLLAMA_HOST" (some "http://127.0.0.1:11434") false

/-- Drop leading and trailing characters of `s` that are in `cs`, the Python
`str.strip(chars)`. -/
def strip_chars (s : String) (cs : List Char) : String :=
  String.mk (((s.toList.dropWhile (fun c => cs.contains c)).reverse.dropWhile
    (fun c => cs.contains c)).reverse)

/-- The body of the parsing loop of `load_dotenv` from utils/config.py: one
line of the `.env` file applied to the current process environment. Blank
lines and comments are skipped; a line without `=` is skipped; otherwise the
line is split at the first `=`, the key and value are stripped (the value
also of surrounding quote characters), and the variable is set only when the
key is not already in the environment. -/
def dotenv_step (e : String → Option String) (rawline : String) :
    String → Option String :=
  let line := rawline.trim
  if line = "" || line.startsWith "#" then e
  else
    match line.splitOn "=" with
    | [] => e
    | [_] => e
    | k :: rest =>
      let key := k.trim
      let value :=
        strip_chars (String.intercalate "=" rest).trim
          [Char.ofNat 34, Char.ofNat 39]
      if (e key).isSome then e
      else fun q => if q = key then some value else e q

/-- The parsing loop of `load_dotenv` from utils/config.py, over the lines of
the located `.env` file and the process environment before the call (file
discovery and I/O are outside the embedding; the loop itself is translated
line by line). Returns the process environment after the call. -/
def load_dotenv_lines (lines : List String) (env : String → Option String) :
    String → Option String :=
  lines.foldl dotenv_step env

/-! ## vision/ollama.py and vision/venice.py : `_encode_image` -/

/-- The base64 alphabet used by Python `base64.b64encode`. -/
def BASE64_ALPHABET : String :=
  "ABCDEFGHIJKLMNOPQRSTUVWXYZabcdefghijklmnopqrstuvwxyz0123456789+/"

/-- Character of the base64 alphabet at index `n` (n < 64). -/
def b64Char (n : Nat) : Char :=
  BASE64_ALPHABET.toList.getD n (Char.ofNat 65)

/-- Python `base64.b64encode` over a byte list (each entry < 256), with `=`
padding, decoded to a string. -/
def b64encode : List Nat → String
  | [] => ""
  | [a] =>
    let x := (a % 256) * 65536
    String.mk [b64Char (x / 262144), b64Char (x / 4096 % 64)] ++ "=="
  | [a, b] =>
    let x := (a % 256) * 65536 + (b % 256) * 256
    String.mk [b64Char (x / 262144), b64Char (x / 4096 % 64),
      b64Char (x / 64 % 64)] ++ "="
  | a :: b :: c :: rest =>
    let x := (a % 256) * 65536 + (b % 256) * 256 + c % 256
    String.mk [b64Char (x / 262144), b64Char (x / 4096 % 64),
      b64Char (x / 64 % 64), b64Char (x % 64)] ++ b64encode rest

/-- `OllamaVisionClient._encode_image` from vision/ollama.py: `suffix` is
`Path(image_path).suffix` (the final extension, dot included) and `bytes`
the content of the opened file. -/
def ollama_encode_image (suffix : String) (bytes : List Nat) : String :=
  let img_b64 := b64encode bytes
  let ext := ((suffix.toLower).replace "." "").replace "jpg" "jpeg"
  "data:image/" ++ ext ++ ";base64," ++ img_b64

/-- `VeniceVisionClient._encode_image` from vision/venice.py: `suffix` is
`Path(image_path).suffix` (the final extension, dot included) and `bytes`
the content of the opened file. -/
def venice_encode_image (suffix : String) (bytes : List Nat) : String :=
  let img_b64 := b64encode bytes
  let ext := ((suffix.toLower).replace "." "").replace "jpg" "jpeg"
  "data:image/" ++ ext ++ ";base64," ++ img_b64

/-! ## Theorems -/

/-- C1 (counterexample). The claim "abortedLastRun = true always yields
status crashed regardless of the other fields" fails on the code: for a
session with `abortedLastRun = true`, `systemSent = false` and
`totalTokens = 0`, the later `stalled` branch of `check_health` overwrites
the status, which comes out `"stalled"`, not `"crashed"`. -/
theorem claim_C1_counterexample :
    (Session.mk (some "agent:sub:1") none (some "isolated") (some 0) (some 0)
        (some false) (some true) (some "abcd1234") (some "m")).abortedLastRun
      = some true ∧
    (check_health (fun _ => "-") 0
        (Session.mk (some "agent:sub:1") none (some "isolated") (some 0) (some 0)
          (some false) (some true) (some "abcd1234") (some "m")) 10).status
      ≠ "crashed" := by
  refine ⟨rfl, ?_⟩
  dsimp only [check_health, Option.getD]
  norm_num [tokens_zero_or_none]
  decide

/-- C1 (amended). If `abortedLastRun` is true, `check_health` returns status
`"crashed"` provided no later branch overwrites it: the stalled condition
(`systemSent` false and `totalTokens` zero or absent) does not hold and the
idle time does not exceed `stuck_threshold`. The issue `"crashed/aborted"`
is recorded in every case where the flag is set. -/
theorem claim_C1_theorem (fmt : Int → String) (now : ℚ) (s : Session) (th : Int)
    (h1 : s.abortedLastRun.getD false = true)
    (h2 : ¬(s.systemSent.getD false = false ∧
      tokens_zero_or_none s.totalTokens = true))
    (h3 : ¬((th : ℚ) < (now - (s.updatedAt.getD 0 : ℚ)) / 60000)) :
    (check_health fmt now s th).status = "crashed" ∧
      "crashed/aborted" ∈ (check_health fmt now s th).issues := by
  constructor
  · dsimp only [check_health]
    simp [h1, h2, h3]
  · dsimp only [check_health]
    simp [h1, h2, h3]
    split <;> simp

/-- Witness for C1: a concrete aborted session (system message sent, tokens
positive, idle below threshold) whose status is `"crashed"`. -/
theorem claim_C1_witness :
    (check_health (fun _ => "-") 0
        (Session.mk (some "agent:sub:3") none (some "isolated") (some 0) (some 5)
          (some true) (some true) none none) 0).status = "crashed" ∧
      "crashed/aborted" ∈ (check_health (fun _ => "-") 0
        (Session.mk (some "agent:sub:3") none (some "isolated") (some 0) (some 5)
          (some true) (some true) none none) 0).issues :=
  claim_C1_theorem (fun _ => "-") 0
    (Session.mk (some "agent:sub:3") none (some "isolated") (some 0) (some 5)
      (some true) (some true) none none) 0
    rfl (by simp) (by simp)

/-- C2. The status computed by `check_health` is a pure function of the
observed fields: two session records that agree on `updatedAt`,
`totalTokens`, `systemSent` and `abortedLastRun` (whatever their other
fields) get the same status at the same evaluation instant and threshold.
There is no hidden state: the embedding of `check_health` takes nothing but
the record, the threshold and the clock. -/
theorem claim_C2_theorem (fmt : Int → String) (now : ℚ) (th : Int)
    (s1 s2 : Session)
    (h1 : s1.updatedAt = s2.updatedAt) (h2 : s1.totalTokens = s2.totalTokens)
    (h3 : s1.systemSent = s2.systemSent)
    (h4 : s1.abortedLastRun = s2.abortedLastRun) :
    (check_health fmt now s1 th).status = (check_health fmt now s2 th).status := by
  dsimp only [check_health]
  rw [h1, h2, h3, h4]

/-- Witness for C2: two sessions differing in key, kind, sessionId and model
but agreeing on the four health fields get the same status. -/
theorem claim_C2_witness :
    (check_health (fun _ => "-") 0
        (Session.mk (some "agent:sub:a") none (some "isolated") (some 0) (some 5)
          (some true) (some false) none none) 10).status
      = (check_health (fun _ => "-") 0
        (Session.mk (some "agent:sub:b") none (some "group") (some 0) (some 5)
          (some true) (some false) none (some "model-x")) 10).status :=
  claim_C2_theorem (fun _ => "-") 0 10
    (Session.mk (some "agent:sub:a") none (some "isolated") (some 0) (some 5)
      (some true) (some false) none none)
    (Session.mk (some "agent:sub:b") none (some "group") (some 0) (some 5)
      (some true) (some false) none (some "model-x"))
    rfl rfl rfl rfl

/-- C3 (counterexample). The claim "systemSent false and totalTokens zero or
absent yields status stalled" fails on the code when the session is also
idle beyond the threshold: the later stuck branch overwrites the status,
which comes out `"suspect"`. Here: `systemSent = false`, `totalTokens = 0`,
idle 11 minutes against a threshold of 10. -/
theorem claim_C3_counterexample :
    (Session.mk (some "agent:sub:2") none (some "isolated") (some 0) (some 0)
        (some false) (some false) none none).systemSent = some false ∧
    tokens_zero_or_none (Session.mk (some "agent:sub:2") none (some "isolated")
        (some 0) (some 0) (some false) (some false) none none).totalTokens
      = true ∧
    (check_health (fun _ => "-") 660000
        (Session.mk (some "agent:sub:2") none (some "isolated") (some 0) (some 0)
          (some false) (some false) none none) 10).status ≠ "stalled" := by
  refine ⟨rfl, rfl, ?_⟩
  dsimp only [check_health, Option.getD]
  norm_num [tokens_zero_or_none]
  decide

/-- C3 (amended). If `systemSent` is false and `totalTokens` is zero or
absent, `check_health` returns status `"stalled"` provided the idle time
does not exceed `stuck_threshold` (the stuck branch runs later and would
overwrite the status with `"suspect"`). -/
theorem claim_C3_theorem (fmt : Int → String) (now : ℚ) (s : Session) (th : Int)
    (h1 : s.systemSent.getD false = false)
    (h2 : tokens_zero_or_none s.totalTokens = true)
    (h3 : ¬((th : ℚ) < (now - (s.updatedAt.getD 0 : ℚ)) / 60000)) :
    (check_health fmt now s th).status = "stalled" := by
  dsimp only [check_health]
  simp [h1, h2, h3]

/-- Witness for C3: a fresh session with no system message and no tokens is
reported stalled. -/
theorem claim_C3_witness :
    (check_health (fun _ => "-") 0
        (Session.mk (some "agent:sub:4") none none (some 0) none (some false)
          (some false) none none) 0).status = "stalled" :=
  claim_C3_theorem (fun _ => "-") 0
    (Session.mk (some "agent:sub:4") none none (some 0) none (some false)
      (some false) none none) 0
    rfl rfl (by simp)

/-- C4. Whenever the idle time `(now - updatedAt) / 60000` minutes strictly
exceeds `stuck_threshold`, `check_health` returns status `"suspect"` and the
issue `"STUCK >Nmin"` (N the threshold) is appended to the issues list —
regardless of every other field, since the stuck branch runs last. -/
theorem claim_C4_theorem (fmt : Int → String) (now : ℚ) (s : Session) (th : Int)
    (h : (th : ℚ) < (now - (s.updatedAt.getD 0 : ℚ)) / 60000) :
    (check_health fmt now s th).status = "suspect" ∧
      ("STUCK >" ++ toString th ++ "min") ∈ (check_health fmt now s th).issues := by
  constructor
  · dsimp only [check_health]
    simp [h]
  · dsimp only [check_health]
    simp [h]

/-- Idle-time fact for the C4 witness: one minute of idle time exceeds a
threshold of zero minutes. -/
theorem c4_witness_idle :
    ((0 : Int) : ℚ) < ((60000 : ℚ) - (((0 : Int) : ℚ))) / 60000 := by
  norm_num

/-- Witness for C4: a session idle for one minute against a threshold of
zero minutes is reported suspect with a STUCK issue. -/
theorem claim_C4_witness :
    (check_health (fun _ => "-") 60000
        (Session.mk (some "agent:sub:5") none none (some 0) (some 5) (some true)
          (some false) none none) 0).status = "suspect" ∧
      ("STUCK >" ++ toString (0 : Int) ++ "min") ∈ (check_health (fun _ => "-")
        60000 (Session.mk (some "agent:sub:5") none none (some 0) (some 5)
          (some true) (some false) none none) 0).issues :=
  claim_C4_theorem (fun _ => "-") 60000
    (Session.mk (some "agent:sub:5") none none (some 0) (some 5) (some true)
      (some false) none none) 0
    c4_witness_idle

/-- Helper for C5: when every line of the stripped stdout fails to parse,
the line-delimited fallback collects nothing. -/
theorem parse_lines_nil (parse : String → Option Json) (stdout : String)
    (so co : Bool)
    (h : ∀ l ∈ stdout.trim.splitOn "\n", parse l = none) :
    parse_lines parse stdout so co = [] := by
  unfold parse_lines
  generalize hls : stdout.trim.splitOn "\n" = ls at h ⊢
  clear hls
  induction ls with
  | nil => rfl
  | cons head tail ih =>
    have hh : parse head = none := h head (List.mem_cons_self _ _)
    have ht : ∀ l ∈ tail, parse l = none :=
      fun l hl => h l (List.mem_cons_of_mem _ hl)
    simp only [List.foldl_cons, hh]
    simpa using ih ht

/-- C5. `get_sessions` returns the empty session list, without raising, both
when the external command exits non-zero and when its stdout is neither a
parsable JSON document nor newline-delimited JSON (every non-empty line
failing to parse as well). -/
theorem claim_C5_theorem (parse : String → Option Json) (rc : Int)
    (out : String) (so co : Bool) :
    (rc ≠ 0 → get_sessions parse rc out so co = some (Json.arr [])) ∧
    (parse out = none →
      (∀ l ∈ out.trim.splitOn "\n", parse l = none) →
      get_sessions parse rc out so co = some (Json.arr [])) := by
  constructor
  · intro hrc
    unfold get_sessions
    rw [if_pos hrc]
  · intro hp hl
    unfold get_sessions
    split
    · rfl
    · rw [hp, parse_lines_nil parse out so co hl]

/-- Witness for C5: a non-zero exit, and a stdout none of whose lines is
JSON, each produce the empty session list. -/
theorem claim_C5_witness :
    get_sessions (fun _ => none) 1 "x" false false = some (Json.arr []) ∧
    get_sessions (fun _ => none) 0 "not json" true false = some (Json.arr []) :=
  ⟨(claim_C5_theorem (fun _ => none) 1 "x" false false).1 (by decide),
   (claim_C5_theorem (fun _ => none) 0 "not json" true false).2 rfl
     (fun _ _ => rfl)⟩

/-- C6. Looking up each registered name returns exactly the class that a
direct import of its module yields, and `get_tool` succeeds precisely on the
two registered names — every other name raises `KeyError`. -/
theorem claim_C6_theorem :
    get_tool "vision.ollama"
      = Except.ok (import_class "agent_tools.vision.ollama" "OllamaVisionClient") ∧
    get_tool "vision.venice"
      = Except.ok (import_class "agent_tools.vision.venice" "VeniceVisionClient") ∧
    ∀ name : String,
      (∃ c, get_tool name = Except.ok c) ↔
        (name = "vision.ollama" ∨ name = "vision.venice") := by
  refine ⟨rfl, rfl, ?_⟩
  intro name
  constructor
  · rintro ⟨c, hc⟩
    by_cases h1 : name = "vision.ollama"
    · exact Or.inl h1
    by_cases h2 : name = "vision.venice"
    · exact Or.inr h2
    exfalso
    have e1 : ("vision.ollama" == name) = false := by
      simp [beq_eq_false_iff_ne]
      exact fun hh => h1 hh.symm
    have e2 : ("vision.venice" == name) = false := by
      simp [beq_eq_false_iff_ne]
      exact fun hh => h2 hh.symm
    simp [get_tool, REGISTRY, List.find?, e1, e2] at hc
  · rintro (rfl | rfl)
    · exact ⟨_, rfl⟩
    · exact ⟨_, rfl⟩

/-- C7. Converting a `VisionResult` to a string yields exactly its
description, whatever the raw response and model fields are. -/
theorem claim_C7_theorem : ∀ (d : String) (r : Option Json) (m : Option String),
    (VisionResult.mk d r m).str = d :=
  fun _ _ _ => rfl

/-- C8. `get_env(key, required=True)` (no default) fails exactly when the
variable is unset; hence `VeniceVisionClient.from_env` fails exactly when
`VENICE_API_KEY` is absent from the environment after `.env` loading, while
`OllamaVisionClient.from_env` never fails, `OLLAMA_HOST` having a default. -/
theorem claim_C8_theorem :
    (∀ (env : String → Option String) (key : String),
      (get_env env key none true).isOk = false ↔ env key = none) ∧
    (∀ env : String → Option String,
      (venice_from_env env).isOk = false ↔ env "VENICE_API_KEY" = none) ∧
    (∀ env : String → Option String, (ollama_from_env env).isOk = true) := by
  refine ⟨?_, ?_, ?_⟩
  · intro env key
    cases h : env key <;> simp [get_env, h, Except.isOk, Except.toBool]
  · intro env
    cases h : env "VENICE_API_KEY" <;>
      simp [venice_from_env, get_env, h, Except.isOk, Except.toBool]
  · intro env
    cases h : env "OLLAMA_HOST" <;>
      simp [ollama_from_env, get_env, h, Except.isOk, Except.toBool]

/-- C9. The two `_encode_image` implementations agree on every input: same
extension handling (lower-cased suffix, dot removed, `jpg` rewritten to
`jpeg`) and same base64 data URL for the same file bytes. -/
theorem claim_C9_theorem : ∀ (suffix : String) (bytes : List Nat),
    ollama_encode_image suffix bytes = venice_encode_image suffix bytes :=
  fun _ _ => rfl

/-- Helper for C10: one line of a `.env` file never changes the value of a
variable that is already set. -/
theorem dotenv_step_preserves (e : String → Option String) (l : String)
    (key v : String) (h : e key = some v) :
    dotenv_step e l key = some v := by
  by_cases c1 : (l.trim = "" || l.trim.startsWith "#") = true
  · simp [dotenv_step, c1, h]
  · rcases hs : l.trim.splitOn "=" with _ | ⟨k, _ | ⟨r, rs⟩⟩
    · simp [dotenv_step, c1, hs, h]
    · simp [dotenv_step, c1, hs, h]
    · by_cases c2 : (e k.trim).isSome = true
      · simp [dotenv_step, c1, hs, c2, h]
      · by_cases hk : key = k.trim
        · exfalso
          rw [← hk] at c2
          simp [h] at c2
        · simp [dotenv_step, c1, hs, c2, hk, h]

/-- C10. `load_dotenv` never overrides an environment variable that is
already set: every key present before the call keeps its value, whatever
the `.env` file contains. -/
theorem claim_C10_theorem (lines : List String)
    (env : String → Option String) (key v : String)
    (h : env key = some v) :
    load_dotenv_lines lines env key = some v := by
  unfold load_dotenv_lines
  induction lines generalizing env with
  | nil => exact h
  | cons l ls ih =>
    simp only [List.foldl_cons]
    exact ih (dotenv_step env l) (dotenv_step_preserves env l key v h)

/-- Witness for C10: loading a `.env` line `FOO=bar` over an environment
where `FOO` is already `x` leaves `FOO` at `x`. -/
theorem claim_C10_witness :
    load_dotenv_lines ["FOO=bar"]
        (fun q => if q = "FOO" then some "x" else none) "FOO" = some "x" :=
  claim_C10_theorem ["FOO=bar"]
    (fun q => if q = "FOO" then some "x" else none) "FOO" "x" rfl
